import Mathlib

/-!
Verification of the staged-mutation and schema-change workflow engine of
`api/actions.py` (resource registry, DDL change queue, staged mutation
pipeline, replay engine).  The definitions below are a shallow embedding of
the Python source: each definition mirrors one function of `api/actions.py`,
with the database session abstracted as an explicit state and the SQL
executor as a function parameter.
-/

namespace OEP

/-- Python run-time values as they occur in request dictionaries and rows. -/
inductive Val where
  | null
  | str (s : String)
  | int (n : Int)
  | bool (b : Bool)
  deriving DecidableEq, Repr

/-- Exceptions raised by the actions module: `APIError` (from `api.error`,
optionally with an HTTP status), `InvalidRequest`, `ResponsiveException`,
the raw database driver errors, and the Python built-ins KeyError /
TypeError. -/
inductive PyErr where
  | apiError (msg : String)
  | apiErrorStatus (msg : String) (status : Nat)
  | invalidRequest (msg : String)
  | responsiveException (msg : String)
  | dbError (msg : String)
  | keyError (key : String)
  | typeError (msg : String)
  deriving DecidableEq, Repr

/-- A single quote character, as used by the SQL string building. -/
def sQuote : String := String.singleton (Char.ofNat 39)

/-- Python truthiness test `not s or s.isspace()` used by `perform_sql`:
true iff the string is empty or consists of whitespace only. -/
def pyBlank (s : String) : Bool := s.data.isEmpty || s.data.all Char.isWhitespace

/-- Does the first list occur at the start of the second one? -/
def listStarts [DecidableEq α] : List α → List α → Bool
  | [], _ => true
  | _ :: _, [] => false
  | a :: as, b :: bs => a = b && listStarts as bs

/-- Does the first list occur contiguously inside the second one? -/
def listSub [DecidableEq α] (n : List α) : List α → Bool
  | [] => listStarts n []
  | b :: bs => listStarts n (b :: bs) || listSub n bs

/-- Python `needle in hay` on strings. -/
def strSub (needle hay : String) : Bool := listSub needle.data hay.data

/-- Python `str(...)` on an optional string column value (`str(None)` is
the text `None`). -/
def pyStrOpt : Option String → String
  | none => "None"
  | some s => s

/-- Lower-case an ASCII character (Python `str.lower`). -/
def lowerChar (c : Char) : Char :=
  if 65 ≤ c.toNat ∧ c.toNat ≤ 90 then Char.ofNat (c.toNat + 32) else c

/-- Lower-case a string (Python `str.lower`). -/
def lowerStr (s : String) : String := ⟨s.data.map lowerChar⟩

/-- The response envelope built by `get_response_dict`. -/
structure RespDict where
  success : Bool
  error : Option String
  http_status : Nat
  exception : Option String
  result : Option String
  deriving DecidableEq, Repr

/-- `get_response_dict(success, http_status_code, reason, exception, result)`. -/
def getResponseDict (success : Bool) (http : Nat) (reason : Option String)
    (exception : Option String) (result : Option String) : RespDict :=
  { success := success, error := reason, http_status := http,
    exception := exception, result := result }

/-- An abstract SQL executor: the verdict of the underlying database on a
statement string (`session.execute`). -/
def Exec := String → Except String Unit

/-- `perform_sql(sql_statement)`: empty or whitespace-only statements succeed
without touching the database; otherwise the statement is executed, a driver
failure is re-raised as `APIError`, and success commits.  The second
component is the list of statements actually handed to the session. -/
def performSql (exec : Exec) (stmt : String) : Except PyErr RespDict × List String :=
  if pyBlank stmt then
    (.ok (getResponseDict true 200 none none none), [])
  else
    match exec stmt with
    | .error e => (.error (.apiError e), [stmt])
    | .ok _ => (.ok (getResponseDict true 200 none none (some "result")), [stmt])

deriving instance DecidableEq for Except

/-! ## Resource registry

`__CONNECTIONS` and `__CURSORS` are process-wide dictionaries keyed by the
Python hash of the underlying connection / cursor object.  Connections and
cursors themselves are abstracted as numeric object identities. -/

/-- Dictionary lookup `d.get(k)` on an association list. -/
def dictGet : List (Nat × Nat) → Nat → Option Nat
  | [], _ => none
  | (k, v) :: t, h => if k = h then some v else dictGet t h

/-- Dictionary assignment `d[k] = v` on an association list. -/
def dictInsert : List (Nat × Nat) → Nat → Nat → List (Nat × Nat)
  | [], h, v => [(h, v)]
  | (k, w) :: t, h, v => if k = h then (h, v) :: t else (k, w) :: dictInsert t h v

/-- Dictionary deletion `del d[k]` on an association list. -/
def dictRemove (l : List (Nat × Nat)) (h : Nat) : List (Nat × Nat) :=
  l.filter (fun kv => kv.1 ≠ h)

/-- The process-wide registry state: `__CONNECTIONS` and `__CURSORS`. -/
structure Registry where
  conns : List (Nat × Nat)
  curs : List (Nat × Nat)
  deriving DecidableEq, Repr

/-- `open_raw_connection`: the handle is `connection.__hash__()`; the
connection is stored only if that hash is not already a key. -/
def openRawConnection (st : Registry) (conn connHash : Nat) : Registry × Nat :=
  let st' := if (dictGet st.conns connHash).isSome then st
             else { st with conns := dictInsert st.conns connHash conn }
  (st', connHash)

/-- `open_cursor`: requires the connection handle to be registered; the new
cursor is stored under `cursor.__hash__()`, overwriting any existing entry. -/
def openCursor (st : Registry) (connectionId cursor cursorHash : Nat) :
    Registry × Except String Nat :=
  if (dictGet st.conns connectionId).isSome then
    ({ st with curs := dictInsert st.curs cursorHash cursor }, .ok cursorHash)
  else
    (st, .error ("Connection (" ++ toString connectionId ++ ") not found"))

/-- `close_cursor`: deletes the entry when present, otherwise an error
response; the registry is unchanged on the error path. -/
def closeCursor (st : Registry) (cursorId : Nat) : Registry × Except String Nat :=
  if (dictGet st.curs cursorId).isSome then
    ({ st with curs := dictRemove st.curs cursorId }, .ok cursorId)
  else
    (st, .error ("Cursor (" ++ toString cursorId ++ ") not found"))

/-- `close_raw_connection`: closes the underlying connection but never
removes the registry entry. -/
def closeRawConnection (st : Registry) (connectionId : Nat) :
    Registry × Except String Nat :=
  if (dictGet st.conns connectionId).isSome then (st, .ok connectionId)
  else (st, .error ("Connection (" ++ toString connectionId ++ ") not found"))

/-- `_load_cursor(cursor_id)`: lookup in `__CURSORS`, raising
`ResponsiveException` when the handle is unknown. -/
def loadCursor (st : Registry) (cursorId : Nat) : Except PyErr Nat :=
  match dictGet st.curs cursorId with
  | some c => .ok c
  | none => .error (.responsiveException ("Cursor (" ++ toString cursorId ++ ") not found"))

/-- Registry operations occurring in the source that can touch `__CURSORS`
or `__CONNECTIONS`: `open_cursor` / the `load_cursor` wrapper /
`__internal_select` all insert a cursor under its hash, `close_cursor`
removes one, and the connection operations as above. -/
inductive RegOp where
  | addCursor (cursorHash cursor : Nat)
  | closeCur (cursorId : Nat)
  | openConn (conn connHash : Nat)
  | closeConn (connectionId : Nat)
  deriving DecidableEq, Repr

/-- One registry operation, discarding the response. -/
def stepReg (st : Registry) : RegOp → Registry
  | .addCursor h c => { st with curs := dictInsert st.curs h c }
  | .closeCur i => (closeCursor st i).1
  | .openConn c h => (openRawConnection st c h).1
  | .closeConn i => (closeRawConnection st i).1

/-- A sequence of registry operations. -/
def runReg (st : Registry) : List RegOp → Registry
  | [] => st
  | op :: rest => runReg (stepReg st op) rest

/-- Does the operation insert a cursor under the given handle? -/
def reissues (h : Nat) : RegOp → Bool
  | .addCursor h' _ => h' = h
  | _ => false

theorem dictGet_dictInsert_ne (l : List (Nat × Nat)) (h k v : Nat) (hne : k ≠ h) :
    dictGet (dictInsert l k v) h = dictGet l h := by
  induction l with
  | nil => simp [dictInsert, dictGet, hne]
  | cons kv t ih =>
    obtain ⟨k1, v1⟩ := kv
    by_cases hk : k1 = k
    · subst hk
      simp [dictInsert, dictGet, hne]
    · simp only [dictInsert, if_neg hk, dictGet, ih]

theorem dictGet_dictInsert_self (l : List (Nat × Nat)) (k v : Nat) :
    dictGet (dictInsert l k v) k = some v := by
  induction l with
  | nil => simp [dictInsert, dictGet]
  | cons kv t ih =>
    obtain ⟨k1, v1⟩ := kv
    by_cases hk : k1 = k
    · subst hk
      simp [dictInsert, dictGet]
    · simp [dictInsert, hk, dictGet, ih]

theorem dictGet_dictRemove (l : List (Nat × Nat)) (i h : Nat) :
    dictGet l h = none → dictGet (dictRemove l i) h = none := by
  intro hl
  induction l with
  | nil => simp [dictRemove, dictGet]
  | cons kv t ih =>
    obtain ⟨k1, v1⟩ := kv
    by_cases hkh : k1 = h
    · simp [dictGet, hkh] at hl
    · simp only [dictGet, if_neg hkh] at hl
      by_cases hki : k1 = i
      · simpa [dictRemove, List.filter, hki] using ih hl
      · have : dictRemove ((k1, v1) :: t) i = (k1, v1) :: dictRemove t i := by
          simp [dictRemove, List.filter, hki]
        rw [this]
        simpa [dictGet, hkh] using ih hl

theorem dictGet_dictRemove_self (l : List (Nat × Nat)) (h : Nat) :
    dictGet (dictRemove l h) h = none := by
  induction l with
  | nil => simp [dictRemove, dictGet]
  | cons kv t ih =>
    obtain ⟨k1, v1⟩ := kv
    by_cases hkh : k1 = h
    · simpa [dictRemove, List.filter, hkh] using ih
    · have : dictRemove ((k1, v1) :: t) h = (k1, v1) :: dictRemove t h := by
        simp [dictRemove, List.filter, hkh]
      rw [this]
      simpa [dictGet, hkh] using ih

/-- Steps that do not re-issue a cursor handle keep it absent from
`__CURSORS`. -/
theorem stepReg_preserves_absent (st : Registry) (op : RegOp) (h : Nat)
    (habs : dictGet st.curs h = none) (hop : reissues h op = false) :
    dictGet (stepReg st op).curs h = none := by
  cases op with
  | addCursor h' c =>
    have hne : h' ≠ h := by
      intro he; rw [he] at hop; simp [reissues] at hop
    simpa [stepReg, dictGet_dictInsert_ne st.curs h h' c hne] using habs
  | closeCur i =>
    simp only [stepReg, closeCursor]
    by_cases hc : (dictGet st.curs i).isSome
    · simpa [if_pos hc] using dictGet_dictRemove st.curs i h habs
    · simpa [if_neg hc] using habs
  | openConn c h' =>
    by_cases hc : (dictGet st.conns h').isSome
    · simpa [stepReg, openRawConnection, hc] using habs
    · simpa [stepReg, openRawConnection, hc] using habs
  | closeConn i =>
    by_cases hc : (dictGet st.conns i).isSome
    · simpa [stepReg, closeRawConnection, hc] using habs
    · simpa [stepReg, closeRawConnection, hc] using habs

theorem runReg_preserves_absent (ops : List RegOp) (st : Registry) (h : Nat)
    (habs : dictGet st.curs h = none) (hops : ∀ op ∈ ops, reissues h op = false) :
    dictGet (runReg st ops).curs h = none := by
  induction ops generalizing st with
  | nil => simpa [runReg] using habs
  | cons op rest ih =>
    simp only [runReg]
    exact ih (stepReg st op)
      (stepReg_preserves_absent st op h habs (hops op (by simp)))
      (fun o ho => hops o (by simp [ho]))

/-- C9: after `close_cursor` succeeds on a handle, `_load_cursor` on that
handle fails with the cursor-not-found `ResponsiveException`, and it keeps
failing across any further registry operations none of which re-issues the
handle (a new `open` storing a cursor under the same hash). -/
theorem cursor_handle_lifecycle (st st' : Registry) (h : Nat)
    (hclose : closeCursor st h = (st', .ok h)) (ops : List RegOp)
    (hops : ∀ op ∈ ops, reissues h op = false) :
    loadCursor st' h =
      .error (.responsiveException ("Cursor (" ++ toString h ++ ") not found")) ∧
    loadCursor (runReg st' ops) h =
      .error (.responsiveException ("Cursor (" ++ toString h ++ ") not found")) := by
  have habs : dictGet st'.curs h = none := by
    by_cases hc : (dictGet st.curs h).isSome
    · have : st' = { st with curs := dictRemove st.curs h } := by
        simpa [closeCursor, if_pos hc] using congrArg Prod.fst hclose.symm
      rw [this]
      exact dictGet_dictRemove_self st.curs h
    · exfalso
      have := congrArg Prod.snd hclose
      simp [closeCursor, if_neg hc] at this
  constructor
  · simp [loadCursor, habs]
  · simp [loadCursor, runReg_preserves_absent ops st' h habs hops]

/-- C9 witness: open cursor 7 on connection 1, close it, then run unrelated
operations; resolution of handle 7 fails throughout. -/
theorem cursor_handle_lifecycle_witness :
    closeCursor { conns := [(1, 1)], curs := [(7, 70)] } 7 =
      ({ conns := [(1, 1)], curs := [] }, .ok 7) ∧
    (∀ op ∈ [RegOp.addCursor 3 30, RegOp.closeCur 3], reissues 7 op = false) ∧
    loadCursor { conns := [(1, 1)], curs := [] } 7 =
      .error (.responsiveException ("Cursor (" ++ toString 7 ++ ") not found")) ∧
    loadCursor (runReg { conns := [(1, 1)], curs := [] }
        [RegOp.addCursor 3 30, RegOp.closeCur 3]) 7 =
      .error (.responsiveException ("Cursor (" ++ toString 7 ++ ") not found")) := by
  refine ⟨by decide, by decide, ?_⟩
  have := cursor_handle_lifecycle { conns := [(1, 1)], curs := [(7, 70)] }
    { conns := [(1, 1)], curs := [] } 7 (by decide)
    [RegOp.addCursor 3 30, RegOp.closeCur 3] (by decide)
  exact this

/-- C8 counterexample: the registry `{5 := connection 1}` already holds
handle 5; opening a fresh connection object 2 whose Python hash collides at
5 returns the handle 5 — not distinct from the handles currently in the
registry — and the registry still resolves 5 to the old connection 1. -/
theorem open_handle_collision_counterexample :
    ¬ (((openRawConnection { conns := [(5, 1)], curs := [] } 2 5).2) ∉
        ({ conns := [(5, 1)], curs := [] } : Registry).conns.map Prod.fst) ∧
    dictGet ((openRawConnection { conns := [(5, 1)], curs := [] } 2 5).1).conns 5 = some 1 := by
  constructor
  · intro hmem
    exact hmem (by decide)
  · decide

/-- C8 amended: handles are the Python hash of the underlying object, not
registry-generated.  `open_raw_connection` returns that hash as the handle
and registers the connection only when the hash is not already a key, so a
colliding open hands back a handle bound to the previously registered
connection; `open_cursor` (on a known connection) returns the cursor's hash
and overwrites any entry already stored under it. -/
theorem handles_identity_derived (st : Registry) (conn h : Nat)
    (connectionId cursor ch : Nat)
    (hconn : (dictGet st.conns connectionId).isSome = true) :
    (openRawConnection st conn h).2 = h ∧
    dictGet (openRawConnection st conn h).1.conns h =
      (if (dictGet st.conns h).isSome then dictGet st.conns h else some conn) ∧
    (openCursor st connectionId cursor ch).2 = .ok ch ∧
    dictGet (openCursor st connectionId cursor ch).1.curs ch = some cursor := by
  refine ⟨rfl, ?_, ?_, ?_⟩
  · by_cases hc : (dictGet st.conns h).isSome
    · simp [openRawConnection, hc]
    · simp [openRawConnection, hc, dictGet_dictInsert_self]
  · simp [openCursor, hconn]
  · simp [openCursor, hconn, dictGet_dictInsert_self]

/-- C8 amended witness: opening connection object 2 with hash 6 over a
registry already holding connection handle 5, then cursor object 30 with
hash 9 on connection 5. -/
theorem handles_identity_derived_witness :
    ((dictGet ({ conns := [(5, 1)], curs := [] } : Registry).conns 5).isSome = true) ∧
    (openRawConnection { conns := [(5, 1)], curs := [] } 2 6).2 = 6 ∧
    dictGet (openRawConnection { conns := [(5, 1)], curs := [] } 2 6).1.conns 6 =
      (if ((dictGet ({ conns := [(5, 1)], curs := [] } : Registry).conns 6).isSome)
        then dictGet ({ conns := [(5, 1)], curs := [] } : Registry).conns 6
        else some 2) ∧
    (openCursor { conns := [(5, 1)], curs := [] } 5 30 9).2 = .ok 9 ∧
    dictGet (openCursor { conns := [(5, 1)], curs := [] } 5 30 9).1.curs 9 = some 30 := by
  refine ⟨by decide, ?_⟩
  exact handles_identity_derived { conns := [(5, 1)], curs := [] } 2 6 5 30 9 (by decide)

/-! ## Database environment

An abstract snapshot of the information-schema state the DDL and staging
code reads: for every table its column descriptions (as produced by
`describe_columns`, in particular `is_nullable` is a *boolean* there), its
primary-key column names, its unique/primary/check/foreign constraints (as
produced by the `pg_constraint` query of `data_insert_check`), and its
rows. -/

/-- A row is a Python dictionary from column names to values. -/
abbrev Row := List (String × Val)

/-- Association-list lookup (Python dictionary access returning `None` for
a missing key, i.e. `d.get(k)`). -/
def assocGet {β : Type} : List (String × β) → String → Option β
  | [], _ => none
  | (k, v) :: t, h => if k = h then some v else assocGet t h

/-- One column as described by `describe_columns` (note that it translates
`is_nullable` into a boolean). -/
structure ColDesc where
  data_type : String
  is_nullable : Bool
  column_default : Option String
  deriving DecidableEq, Repr

/-- One constraint as returned by the `pg_constraint` query in
`data_insert_check`. -/
structure PgConstraint where
  conname : String
  contype : String
  columns : List String
  deriving DecidableEq, Repr

/-- A live table of the database. -/
structure TableDef where
  schema : String
  name : String
  cols : List (String × ColDesc)
  pks : List String
  constraints : List PgConstraint
  rows : List Row
  deriving DecidableEq, Repr

/-- The database snapshot. -/
structure Env where
  tables : List TableDef
  deriving DecidableEq, Repr

def findTable (env : Env) (schema table : String) : Option TableDef :=
  env.tables.find? (fun t => t.schema = schema && t.name = table)

/-- `describe_columns(schema, table)`: column dictionary of the table,
empty when the table does not exist. -/
def describeColumns (env : Env) (schema table : String) : List (String × ColDesc) :=
  match findTable env schema table with
  | some t => t.cols
  | none => []

/-! ## DDL change queue -/

/-- One row of `public.api_columns` as materialised by
`get_column_changes` (note the fixed key set: there is no `name` key). -/
structure QueueRow where
  id : Nat
  column_name : String
  not_null : Option Bool
  data_type : Option String
  new_name : Option String
  reviewed : Bool
  changed : Bool
  c_schema : String
  c_table : String
  exception : Option String
  deriving DecidableEq, Repr

/-- `get_column_change(i_id)`: first queue row with the matching id. -/
def getColumnChange (queue : List QueueRow) (i : Nat) : Option QueueRow :=
  queue.find? (fun r => r.id = i)

/-- `table_change_column(column_definition)`.

The missing-table branch returns a failure response dict (no exception
attached).  In the column-exists branch the source evaluates
`existing_column_description[column_definition['name']]` whenever a data
type is requested — the queue row dictionary has no `name` key, so this is
a `KeyError`; with no data type requested it reaches
`'NO' in existing_column_description[start_name]['is_nullable']`, a
membership test on the boolean produced by `describe_columns`, which is a
`TypeError`.  Only the add-column branch reaches `perform_sql`. -/
def tableChangeColumn (exec : Exec) (env : Env) (cdef : QueueRow) :
    Except PyErr RespDict × List String :=
  let existing := describeColumns env cdef.c_schema cdef.c_table
  if existing.length = 0 then
    (.ok (getResponseDict false 400 (some "table is not defined.") none none), [])
  else
    if (assocGet existing cdef.column_name).isSome then
      match cdef.data_type with
      | some _ => (.error (.keyError "name"), [])
      | none => (.error (.typeError "argument of type bool is not iterable"), [])
    else
      let stmt := "ALTER TABLE " ++ cdef.c_schema ++ "." ++ cdef.c_table ++ " ADD " ++
        cdef.column_name ++ " " ++ pyStrOpt cdef.data_type ++ " ;"
      performSql exec stmt

/-- `apply_queued_column(id)`: loads the queued change, runs the mutator,
then records the outcome in `public.api_columns` via `perform_sql`.  On the
failure path the recording statement interpolates `str(res.get('exception'))`
without quoting. -/
def applyQueuedColumn (exec : Exec) (env : Env) (queue : List QueueRow) (i : Nat) :
    Except PyErr RespDict × List String :=
  match getColumnChange queue i with
  | none => (.error (.typeError "NoneType is not subscriptable"), [])
  | some cdef =>
    let tcc := tableChangeColumn exec env cdef
    match tcc.1 with
    | .error e => (.error e, tcc.2)
    | .ok res =>
      let sql := if res.success then
          "UPDATE api_columns SET reviewed=True, changed=True WHERE id=" ++
            sQuote ++ toString i ++ sQuote
        else
          "UPDATE api_columns SET reviewed=False, changed=False, exception=" ++
            pyStrOpt res.exception ++ " WHERE id=" ++ sQuote ++ toString i ++ sQuote
      let ps := performSql exec sql
      match ps.1 with
      | .error e => (.error e, tcc.2 ++ ps.2)
      | .ok _ => (.ok res, tcc.2 ++ ps.2)

/-- An executor that accepts every statement (a database on which all the
issued DDL happens to succeed). -/
def okExec : Exec := fun _ => .ok ()

/-- A PostgreSQL-faithful executor for the queue-recording statements: the
token sequence `exception=None` makes the parser read the unquoted `None`
as a column reference, which does not exist. -/
def pgQueueExec : Exec := fun stmt =>
  if strSub "exception=None" stmt then .error "column \"none\" does not exist"
  else .ok ()

/-- C3: evaluation at the failing input.  A queued column change whose
target table does not exist makes `table_change_column` return a failure
dict with `exception = None`; `apply_queued_column` then builds the
recording statement `UPDATE api_columns SET reviewed=False, changed=False,
exception=None WHERE id='1'` — the exception text is interpolated without
quoting — and `perform_sql` raises `APIError` when the database rejects the
bare `None`.  The call therefore raises instead of returning the failure
result, and the queue row is never updated. -/
theorem apply_queued_column_failure_eval :
    applyQueuedColumn pgQueueExec { tables := [] }
      [{ id := 1, column_name := "x", not_null := none, data_type := some "text",
         new_name := none, reviewed := false, changed := false,
         c_schema := "model_draft", c_table := "nope", exception := none }] 1 =
      (.error (.apiError "column \"none\" does not exist"),
       ["UPDATE api_columns SET reviewed=False, changed=False, exception=None WHERE id=" ++
         sQuote ++ "1" ++ sQuote]) ∧
    strSub "exception=None"
      ("UPDATE api_columns SET reviewed=False, changed=False, exception=None WHERE id=" ++
        sQuote ++ "1" ++ sQuote) = true := by
  constructor
  · decide
  · decide

/-! ## Column mutators -/

/-- The body of a `column_alter` request. -/
structure AlterQuery where
  data_type : Option String
  character_maximum_length : Option String
  is_nullable : Option Bool
  column_default : Option String
  name : Option String
  deriving DecidableEq, Repr

/-- Run a list of statements through `perform_sql` one by one, stopping at
the first raised `APIError` (each statement commits on its own — there is
no multi-statement atomicity). -/
def runStmts (exec : Exec) : List String → Except PyErr Unit × List String
  | [] => (.ok (), [])
  | s :: rest =>
    let ps := performSql exec s
    match ps.1 with
    | .error e => (.error e, ps.2)
    | .ok _ =>
      let r := runStmts exec rest
      (r.1, ps.2 ++ r.2)

/-- `column_alter(query, context, schema, table, column)`: refuses the `id`
column outright, otherwise issues one `ALTER TABLE` statement per requested
sub-operation in the fixed order retype, nullability, default, rename. -/
def columnAlter (exec : Exec) (query : AlterQuery) (schema table column : String) :
    Except PyErr RespDict × List String :=
  if column = "id" then (.error (.apiError "You cannot alter the id column"), [])
  else
    let pre := "ALTER TABLE " ++ schema ++ "." ++ table ++ " ALTER COLUMN " ++ column ++ " "
    let stmts :=
      (match query.data_type, query.character_maximum_length with
       | some dt, some n => [pre ++ "SET DATA TYPE " ++ dt ++ "(" ++ n ++ ")"]
       | some dt, none => [pre ++ "SET DATA TYPE " ++ dt]
       | none, _ => []) ++
      (match query.is_nullable with
       | some true => [pre ++ " DROP NOT NULL"]
       | some false => [pre ++ " SET NOT NULL"]
       | none => []) ++
      (match query.column_default with
       | some v => [pre ++ "SET DEFAULT " ++ v]
       | none => []) ++
      (match query.name with
       | some nn => ["ALTER TABLE " ++ schema ++ "." ++ table ++
          " RENAME COLUMN " ++ column ++ " TO " ++ nn]
       | none => [])
    let r := runStmts exec stmts
    match r.1 with
    | .error e => (.error e, r.2)
    | .ok _ => (.ok (getResponseDict true 200 none none none), r.2)

/-- C4: for every executor, request body, schema and table, `column_alter`
on the column named `id` fails with the APIError refusal `You cannot alter
the id column` — the error the spec's taxonomy files under permission
denial for protected columns — and no SQL statement is issued, whichever
sub-operations the request contains. -/
theorem column_alter_id_protected (exec : Exec) (query : AlterQuery)
    (schema table : String) :
    columnAlter exec query schema table "id" =
      (.error (.apiError "You cannot alter the id column"), []) := by
  simp [columnAlter]

/-! ## Table creation -/

/-- One column description of a `table_create` request. -/
structure CreateColDef where
  name : String
  data_type : String
  character_maximum_length : Option Nat
  is_nullable : Option Bool
  column_default : Option String
  deriving DecidableEq, Repr

/-- `get_column_definition_query(c)` (a `character_maximum_length` of 0 is
falsy in Python and therefore dropped). -/
def getColumnDefinitionQuery (c : CreateColDef) : String :=
  c.name ++ " " ++ c.data_type ++ " " ++
  (match c.character_maximum_length with
   | some n => if n = 0 then "" else "(" ++ toString n ++ ")"
   | none => "") ++ " " ++
  (match c.is_nullable with
   | some false => "NOT NULL"
   | _ => "") ++ " " ++
  (match c.column_default with
   | some d => "DEFAULT " ++ d
   | none => "")

/-- One constraint description as consumed by `table_change_constraint`. -/
structure ConstraintDef where
  action : String
  constraint_type : String
  constraint_name : Option String
  constraint_parameter : String
  reference_table : Option String
  reference_column : Option String
  c_schema : String
  c_table : String
  deriving DecidableEq, Repr

/-- `table_change_constraint(constraint_definition)`. -/
def tableChangeConstraint (exec : Exec) (env : Env) (cdef : ConstraintDef) :
    Except PyErr RespDict × List String :=
  let existing := describeColumns env cdef.c_schema cdef.c_table
  if existing.length = 0 then (.error (.apiError "Table does not exist"), [])
  else
    let sqlE : Except PyErr String :=
      if strSub "ADD" cdef.action then
        let base := "ALTER TABLE " ++ cdef.c_schema ++ "." ++ cdef.c_table ++ " " ++
          cdef.action ++ " " ++
          (match cdef.constraint_name with
           | some n => "CONSTRAINT " ++ n
           | none => "") ++ " " ++ cdef.constraint_type ++
          " (" ++ cdef.constraint_parameter ++ ")"
        if strSub "FOREIGN KEY" cdef.constraint_type then
          match cdef.reference_table, cdef.reference_column with
          | some rt, some rc => .ok (base ++ " REFERENCES " ++ rt ++ "(" ++ rc ++ ")" ++ ";")
          | _, _ => .error (.apiError "references are not defined correctly")
        else .ok (base ++ ";")
      else if strSub "DROP" cdef.action then
        .ok ("ALTER TABLE " ++ cdef.c_schema ++ "." ++ cdef.c_table ++
          " DROP CONSTRAINT " ++ pyStrOpt cdef.constraint_name)
      else .ok ""
    match sqlE with
    | .error e => (.error e, [])
    | .ok s => performSql exec s

/-- The constraint-mutation loop of `table_create`, collecting the returned
response dicts; a raise aborts the loop. -/
def runConstraints (exec : Exec) (env : Env) :
    List ConstraintDef → Except PyErr (List RespDict) × List String
  | [] => (.ok [], [])
  | cd :: rest =>
    let r := tableChangeConstraint exec env cd
    match r.1 with
    | .error e => (.error e, r.2)
    | .ok res =>
      let rr := runConstraints exec env rest
      match rr.1 with
      | .error e => (.error e, r.2 ++ rr.2)
      | .ok l => (.ok (res :: l), r.2 ++ rr.2)

/-- `table_create(schema, table, columns, constraints)`: validates the `id`
column (the *first* column named `id` must have type `bigserial`,
case-insensitively), then emits one `CREATE TABLE` followed by one
constraint mutation per supplied constraint, and returns the first
unsuccessful result if any. -/
def tableCreate (exec : Exec) (env : Env) (schema table : String)
    (columns : List CreateColDef) (constraints : List ConstraintDef) :
    Except PyErr RespDict × List String :=
  match columns.filter (fun c => c.name = "id") with
  | [] => (.error (.apiError "Your table must have one column \"id\" of type \"bigserial\""), [])
  | cid :: _ =>
    if lowerStr cid.data_type ≠ "bigserial" then
      (.error (.apiError "Your column \"id\" must have type \"bigserial\""), [])
    else
      let createStmt := "CREATE TABLE " ++ schema ++ ".\"" ++ table ++ "\" (" ++
        ", ".intercalate (columns.map getColumnDefinitionQuery) ++ ");"
      let first := performSql exec createStmt
      match first.1 with
      | .error e => (.error e, first.2)
      | .ok r1 =>
        match runConstraints exec env constraints with
        | (.error e, stmts) => (.error e, first.2 ++ stmts)
        | (.ok results, stmts) =>
          match (r1 :: results).find? (fun r => !r.success) with
          | some bad => (.ok bad, first.2 ++ stmts)
          | none => (.ok (getResponseDict true 200 none none none), first.2 ++ stmts)

/-- C7 counterexample: a column list with *two* columns named `id` (both
`bigserial`) is not "exactly one column named id", yet `table_create` does
not fail before creating the table: the validation passes, the
`CREATE TABLE` statement is issued to the database, and (on a database that
accepts the statement) the operation even reports success. -/
theorem table_create_duplicate_id_counterexample :
    (List.filter (fun c => c.name = "id")
      [({ name := "id", data_type := "bigserial", character_maximum_length := none,
          is_nullable := none, column_default := none } : CreateColDef),
       { name := "id", data_type := "bigserial", character_maximum_length := none,
         is_nullable := none, column_default := none }]).length ≠ 1 ∧
    tableCreate okExec { tables := [] } "s" "t"
      [{ name := "id", data_type := "bigserial", character_maximum_length := none,
         is_nullable := none, column_default := none },
       { name := "id", data_type := "bigserial", character_maximum_length := none,
         is_nullable := none, column_default := none }] [] =
      (.ok (getResponseDict true 200 none none none),
       ["CREATE TABLE s.\"t\" (id bigserial   , id bigserial   );"]) := by
  constructor
  · decide
  · decide

/-- C7 amended: `table_create` succeeds only if the column list contains at
least one column named `id` and the first such column has data type
`bigserial` (case-insensitively); if there is no `id` column, or the first
`id` column is not `bigserial`, it fails with an `APIError` before issuing
any SQL.  (Duplicate `id` columns pass the validation and the
`CREATE TABLE` is issued, left to the database to reject.) -/
theorem table_create_id_check (exec : Exec) (env : Env) (schema table : String)
    (columns : List CreateColDef) (constraints : List ConstraintDef) :
    (columns.filter (fun c => c.name = "id") = [] →
      tableCreate exec env schema table columns constraints =
        (.error (.apiError "Your table must have one column \"id\" of type \"bigserial\""), [])) ∧
    (∀ cid rest, columns.filter (fun c => c.name = "id") = cid :: rest →
      lowerStr cid.data_type ≠ "bigserial" →
      tableCreate exec env schema table columns constraints =
        (.error (.apiError "Your column \"id\" must have type \"bigserial\""), [])) := by
  constructor
  · intro h
    simp [tableCreate, h]
  · intro cid rest h hdt
    simp [tableCreate, h, hdt]

/-- C7 amended witness: a list without any `id` column fails before any
SQL, and so does a list whose (first) `id` column has type `integer`. -/
theorem table_create_id_check_witness :
    (List.filter (fun c => c.name = "id")
      [({ name := "x", data_type := "text", character_maximum_length := none,
          is_nullable := none, column_default := none } : CreateColDef)] = []) ∧
    tableCreate okExec { tables := [] } "s" "t"
      [{ name := "x", data_type := "text", character_maximum_length := none,
         is_nullable := none, column_default := none }] [] =
      (.error (.apiError "Your table must have one column \"id\" of type \"bigserial\""), []) ∧
    tableCreate okExec { tables := [] } "s" "t"
      [{ name := "id", data_type := "integer", character_maximum_length := none,
         is_nullable := none, column_default := none }] [] =
      (.error (.apiError "Your column \"id\" must have type \"bigserial\""), []) := by
  refine ⟨by decide, ?_, ?_⟩
  · exact (table_create_id_check okExec { tables := [] } "s" "t"
      [{ name := "x", data_type := "text", character_maximum_length := none,
         is_nullable := none, column_default := none }] []).1 (by decide)
  · exact (table_create_id_check okExec { tables := [] } "s" "t"
      [{ name := "id", data_type := "integer", character_maximum_length := none,
         is_nullable := none, column_default := none }] []).2
      { name := "id", data_type := "integer", character_maximum_length := none,
        is_nullable := none, column_default := none } [] (by decide) (by decide)

/-- Column description of a nullable text column without default. -/
def colDescText : ColDesc :=
  { data_type := "text", is_nullable := true, column_default := none }

/-- Column description of the serial `id` primary-key column. -/
def colDescId : ColDesc :=
  { data_type := "bigint", is_nullable := false, column_default := some "seq" }

/-- A live table `model_draft.tbl` with columns `id` and `x`. -/
def envTbl : Env :=
  { tables := [{ schema := "model_draft", name := "tbl",
                 cols := [("id", colDescId), ("x", colDescText)],
                 pks := ["id"], constraints := [], rows := [] }] }

/-- A queued change on the existing column `x` of `model_draft.tbl` that
requests nothing: no new name, no data type, no nullability change. -/
def cdefNoop : QueueRow :=
  { id := 1, column_name := "x", not_null := none, data_type := none,
    new_name := none, reviewed := false, changed := false,
    c_schema := "model_draft", c_table := "tbl", exception := none }

/-- C10 counterexample: a queued change on an *existing* column requesting
no alteration at all — the case whose diff produces no ALTER clauses — does
not report success: `table_change_column` raises a `TypeError` at the
nullability comparison (`'NO' in
existing_column_description[start_name]['is_nullable']`, a membership test
on a boolean) before an empty statement can reach `perform_sql`. -/
theorem noop_diff_not_success_counterexample :
    tableChangeColumn okExec envTbl cdefNoop =
      (.error (.typeError "argument of type bool is not iterable"), []) := by
  decide

/-- C10 amended: `perform_sql` on an empty or whitespace-only statement
returns a success response without executing anything against the
database.  However, a queued change whose diff would produce no ALTER
clauses does not reach this path: whenever the named column exists,
`table_change_column` raises before joining the (empty) statement list — a
`TypeError` at the nullability comparison when no data type is requested,
and a `KeyError` (missing `name` key) when one is. -/
theorem perform_sql_whitespace_noop (exec : Exec) (stmt : String) (env : Env)
    (cdef : QueueRow)
    (hblank : stmt.data.all Char.isWhitespace = true)
    (hcol : (assocGet (describeColumns env cdef.c_schema cdef.c_table)
              cdef.column_name).isSome = true) :
    performSql exec stmt = (.ok (getResponseDict true 200 none none none), []) ∧
    tableChangeColumn exec env cdef =
      (.error (match cdef.data_type with
               | some _ => .keyError "name"
               | none => .typeError "argument of type bool is not iterable"), []) := by
  constructor
  · have hb : pyBlank stmt = true := by
      simp [pyBlank, hblank]
    simp [performSql, hb]
  · have hne : ¬ (describeColumns env cdef.c_schema cdef.c_table).length = 0 := by
      intro hlen
      rw [List.length_eq_zero] at hlen
      rw [hlen] at hcol
      simp [assocGet] at hcol
    cases hdt : cdef.data_type with
    | none => simp [tableChangeColumn, hne, hcol, hdt]
    | some dt => simp [tableChangeColumn, hne, hcol, hdt]

/-- A second queued no-op change, on column `x` of `model_draft.tbl`. -/
def cdefNoop2 : QueueRow :=
  { id := 2, column_name := "x", not_null := none, data_type := none,
    new_name := none, reviewed := false, changed := false,
    c_schema := "model_draft", c_table := "tbl", exception := none }

/-- C10 amended witness: a two-space statement succeeds without execution,
and the concrete no-op diff on table `model_draft.tbl` raises the
`TypeError`. -/
theorem perform_sql_whitespace_noop_witness :
    ("  ".data.all Char.isWhitespace = true) ∧
    ((assocGet (describeColumns envTbl cdefNoop2.c_schema cdefNoop2.c_table)
       cdefNoop2.column_name).isSome = true) ∧
    performSql okExec "  " = (.ok (getResponseDict true 200 none none none), []) ∧
    tableChangeColumn okExec envTbl cdefNoop2 =
      (.error (.typeError "argument of type bool is not iterable"), []) := by
  refine ⟨by decide, by decide, ?_⟩
  have := perform_sql_whitespace_noop okExec "  " envTbl cdefNoop2
    (by decide) (by decide)
  simpa [cdefNoop2] using this

/-! ## Staged mutation pipeline -/

/-- Python `str()` rendering of a request value. -/
def pyShow : Val → String
  | .null => "None"
  | .str s => s
  | .int n => toString n
  | .bool true => "True"
  | .bool false => "False"

/-- Does the string start with the given one (Python `startswith`)? -/
def strStarts (p s : String) : Bool := listStarts p.data s.data

/-- Does the string end with the given one (Python `endswith`)? -/
def strEnds (suf s : String) : Bool := listStarts suf.data.reverse s.data.reverse

/-- Numeric value of a digit list. -/
def digitsToNat : List Char → Nat :=
  List.foldl (fun a c => a * 10 + (c.toNat - 48)) 0

/-- `_load_value(v)`: digit-only strings are converted to integers. -/
def loadValue : Val → Val
  | .str s =>
    if s.data ≠ [] ∧ s.data.all Char.isDigit then .int (digitsToNat s.data)
    else .str s
  | v => v

/-- The failing-row rendering of the pre-validation error messages:
`'(' + ', '.join(str(row[c]) for c in row if not c.startswith('_')) + ')'`. -/
def rowRender (row : Row) : String :=
  "(" ++ ", ".intercalate
    ((row.filter (fun kv => !(strStarts "_" kv.1))).map (fun kv => pyShow kv.2)) ++ ")"

/-- Does the live row match the candidate on every constraint column?  A
constraint column missing from the candidate becomes a value-less operand
(`c = NULL`), which matches no live row. -/
def rowMatchesConstraint (cols : List String) (cand live : Row) : Bool :=
  cols.all (fun c =>
    match assocGet cand c with
    | some v => assocGet live c == some (loadValue v)
    | none => false)

/-- The per-row loop of the unique/primary-key branch of
`data_insert_check`: a live-table lookup per candidate row. -/
def checkUniqueRows (liveRows : List Row) (cols : List String) (cn : String) :
    List Row → Except PyErr Unit
  | [] => .ok ()
  | row :: rest =>
    if (liveRows.filter (rowMatchesConstraint cols row)).isEmpty then
      checkUniqueRows liveRows cols cn rest
    else
      .error (.apiError ("Action violates constraint " ++ cn ++
        ". Failing row was " ++ rowRender row))

/-- The constraint loop of `data_insert_check`: check (`c`) and foreign-key
(`f`) constraints are skipped, unique (`u`) and primary-key (`p`)
constraints are pre-validated. -/
def checkConstraints (liveRows : List Row) (values : List Row) :
    List PgConstraint → Except PyErr Unit
  | [] => .ok ()
  | con :: rest =>
    if lowerStr con.contype = "c" then checkConstraints liveRows values rest
    else if lowerStr con.contype = "f" then checkConstraints liveRows values rest
    else if lowerStr con.contype = "u" ∨ lowerStr con.contype = "p" then
      match checkUniqueRows liveRows con.columns con.conname values with
      | .error e => .error e
      | .ok _ => checkConstraints liveRows values rest
    else checkConstraints liveRows values rest

/-- Is the candidate row's value at the column null-ish in the sense of
`data_insert_check` (missing, `None`, or the string `null`)? -/
def nullishAt (row : Row) (cname : String) : Bool :=
  match assocGet row cname with
  | none => true
  | some .null => true
  | some (.str s) => lowerStr s = "null"
  | some _ => false

/-- Python falsy test on `column.get('column_default', None)`. -/
def noLiveDefault (desc : ColDesc) : Bool :=
  match desc.column_default with
  | none => true
  | some d => d = ""

/-- Does the row violate the not-null pre-validation for the column:
null-ish, and either explicitly present or without a live default? -/
def notNullViolation (row : Row) (cname : String) (desc : ColDesc) : Bool :=
  nullishAt row cname && ((assocGet row cname).isSome || noLiveDefault desc)

/-- The per-row loop of the not-null branch of `data_insert_check`. -/
def checkNotNullRows (cname : String) (desc : ColDesc) :
    List Row → Except PyErr Unit
  | [] => .ok ()
  | row :: rest =>
    if notNullViolation row cname desc then
      .error (.apiError ("Action violates not-null constraint on " ++ cname ++
        ". Failing row was " ++ rowRender row))
    else checkNotNullRows cname desc rest

/-- The column loop of the not-null branch of `data_insert_check`. -/
def checkNotNull (values : List Row) :
    List (String × ColDesc) → Except PyErr Unit
  | [] => .ok ()
  | (cname, desc) :: rest =>
    if desc.is_nullable then checkNotNull values rest
    else
      match checkNotNullRows cname desc values with
      | .error e => .error e
      | .ok _ => checkNotNull values rest

/-- `data_insert_check(schema, table, values, context)`. -/
def dataInsertCheck (env : Env) (schema table : String) (values : List Row) :
    Except PyErr Unit :=
  let cons := match findTable env schema table with
              | some t => t.constraints
              | none => []
  let liveRows := match findTable env schema table with
                  | some t => t.rows
                  | none => []
  match checkConstraints liveRows values cons with
  | .error e => .error e
  | .ok _ => checkNotNull values (describeColumns env schema table)

/-- `data_insert(request, context)`: refuses meta tables, redirects the
write to the insert-shadow table, runs the constraint pre-validation on the
whole batch, and only then executes the staged insert.  The second
component is the insert-shadow table. -/
def dataInsert (env : Env) (schema table : String) (values : List Row)
    (shadowIns : List Row) : Except PyErr Unit × List Row :=
  if strStarts "_" table || strEnds "_cor" table then
    (.error (.apiErrorStatus "Insertions on meta tables is not allowed" 403), shadowIns)
  else
    match dataInsertCheck env schema table values with
    | .error e => (.error e, shadowIns)
    | .ok _ => (.ok (), shadowIns ++ values)

/-- The claim's description of a failing batch: some row matches a
unique/primary-key constraint in the live table, or some NOT-NULL column
without a live default is missing or null in some row. -/
def tableBatchViolation (t : TableDef) (values : List Row) : Prop :=
  (∃ con ∈ t.constraints,
    (lowerStr con.contype = "u" ∨ lowerStr con.contype = "p") ∧
    ∃ row ∈ values, (t.rows.filter (rowMatchesConstraint con.columns row)).isEmpty = false) ∨
  (∃ p ∈ t.cols, p.2.is_nullable = false ∧ noLiveDefault p.2 = true ∧
    ∃ row ∈ values, nullishAt row p.1 = true)

theorem checkUniqueRows_ok (liveRows : List Row) (cols : List String)
    (cn : String) (values : List Row)
    (h : checkUniqueRows liveRows cols cn values = .ok ()) :
    ∀ row ∈ values, (liveRows.filter (rowMatchesConstraint cols row)).isEmpty = true := by
  induction values with
  | nil => intro row hr; cases hr
  | cons row rest ih =>
    intro r hr
    by_cases hf : (liveRows.filter (rowMatchesConstraint cols row)).isEmpty
    · rw [checkUniqueRows, if_pos hf] at h
      rcases List.mem_cons.mp hr with hr | hr
      · subst hr; exact hf
      · exact ih h r hr
    · rw [checkUniqueRows, if_neg hf] at h
      cases h

theorem checkConstraints_ok (liveRows values : List Row)
    (cons : List PgConstraint)
    (h : checkConstraints liveRows values cons = .ok ()) :
    ∀ con ∈ cons, (lowerStr con.contype = "u" ∨ lowerStr con.contype = "p") →
      ∀ row ∈ values,
        (liveRows.filter (rowMatchesConstraint con.columns row)).isEmpty = true := by
  induction cons with
  | nil => intro con hc; cases hc
  | cons con rest ih =>
    intro c hc hup
    rcases List.mem_cons.mp hc with hceq | hc
    · rw [← hceq] at h
      have hnc : ¬ lowerStr c.contype = "c" := by
        rcases hup with hu | hu <;> simp [hu]
      have hnf : ¬ lowerStr c.contype = "f" := by
        rcases hup with hu | hu <;> simp [hu]
      rw [checkConstraints, if_neg hnc, if_neg hnf, if_pos hup] at h
      cases hcur : checkUniqueRows liveRows c.columns c.conname values with
      | error e => rw [hcur] at h; cases h
      | ok u => exact fun row hr => checkUniqueRows_ok _ _ _ _ hcur row hr
    · intro row hr
      by_cases h1 : lowerStr con.contype = "c"
      · rw [checkConstraints, if_pos h1] at h
        exact ih h c hc hup row hr
      · by_cases h2 : lowerStr con.contype = "f"
        · rw [checkConstraints, if_neg h1, if_pos h2] at h
          exact ih h c hc hup row hr
        · by_cases h3 : lowerStr con.contype = "u" ∨ lowerStr con.contype = "p"
          · rw [checkConstraints, if_neg h1, if_neg h2, if_pos h3] at h
            cases hcur : checkUniqueRows liveRows con.columns con.conname values with
            | error e => rw [hcur] at h; cases h
            | ok u => rw [hcur] at h; exact ih h c hc hup row hr
          · rw [checkConstraints, if_neg h1, if_neg h2, if_neg h3] at h
            exact ih h c hc hup row hr

theorem checkNotNullRows_ok (cname : String) (desc : ColDesc) (values : List Row)
    (h : checkNotNullRows cname desc values = .ok ()) :
    ∀ row ∈ values, notNullViolation row cname desc = false := by
  induction values with
  | nil => intro row hr; cases hr
  | cons row rest ih =>
    intro r hr
    by_cases hv : notNullViolation row cname desc
    · rw [checkNotNullRows, if_pos hv] at h; cases h
    · rw [checkNotNullRows, if_neg hv] at h
      rcases List.mem_cons.mp hr with hreq | hr
      · rw [hreq]; simpa using hv
      · exact ih h r hr

theorem checkNotNull_ok (values : List Row) (cols : List (String × ColDesc))
    (h : checkNotNull values cols = .ok ()) :
    ∀ p ∈ cols, p.2.is_nullable = false →
      ∀ row ∈ values, notNullViolation row p.1 p.2 = false := by
  induction cols with
  | nil => intro p hp; cases hp
  | cons p rest ih =>
    obtain ⟨cname, desc⟩ := p
    intro q hq hnn
    by_cases hnul : desc.is_nullable
    · rw [checkNotNull, if_pos hnul] at h
      rcases List.mem_cons.mp hq with hqeq | hq
      · rw [hqeq] at hnn; simp at hnn; rw [hnn] at hnul; cases hnul
      · exact ih h q hq hnn
    · rw [checkNotNull, if_neg hnul] at h
      cases hcur : checkNotNullRows cname desc values with
      | error e => rw [hcur] at h; cases h
      | ok u =>
        rw [hcur] at h
        rcases List.mem_cons.mp hq with hqeq | hq
        · rw [hqeq]; exact checkNotNullRows_ok _ _ _ hcur
        · exact ih h q hq hnn

theorem checkUniqueRows_err (liveRows : List Row) (cols : List String)
    (cn : String) (values : List Row) (e : PyErr)
    (h : checkUniqueRows liveRows cols cn values = .error e) :
    ∃ msg, e = .apiError msg := by
  induction values with
  | nil => rw [checkUniqueRows] at h; cases h
  | cons row rest ih =>
    by_cases hf : (liveRows.filter (rowMatchesConstraint cols row)).isEmpty
    · rw [checkUniqueRows, if_pos hf] at h; exact ih h
    · rw [checkUniqueRows, if_neg hf] at h
      exact ⟨_, (Except.error.inj h).symm⟩

theorem checkConstraints_err (liveRows values : List Row)
    (cons : List PgConstraint) (e : PyErr)
    (h : checkConstraints liveRows values cons = .error e) :
    ∃ msg, e = .apiError msg := by
  induction cons with
  | nil => rw [checkConstraints] at h; cases h
  | cons con rest ih =>
    by_cases h1 : lowerStr con.contype = "c"
    · rw [checkConstraints, if_pos h1] at h; exact ih h
    · by_cases h2 : lowerStr con.contype = "f"
      · rw [checkConstraints, if_neg h1, if_pos h2] at h; exact ih h
      · by_cases h3 : lowerStr con.contype = "u" ∨ lowerStr con.contype = "p"
        · rw [checkConstraints, if_neg h1, if_neg h2, if_pos h3] at h
          cases hcur : checkUniqueRows liveRows con.columns con.conname values with
          | error e2 =>
            rw [hcur] at h
            cases h
            exact checkUniqueRows_err _ _ _ _ _ hcur
          | ok u => rw [hcur] at h; exact ih h
        · rw [checkConstraints, if_neg h1, if_neg h2, if_neg h3] at h; exact ih h

theorem checkNotNullRows_err (cname : String) (desc : ColDesc)
    (values : List Row) (e : PyErr)
    (h : checkNotNullRows cname desc values = .error e) :
    ∃ msg, e = .apiError msg := by
  induction values with
  | nil => rw [checkNotNullRows] at h; cases h
  | cons row rest ih =>
    by_cases hv : notNullViolation row cname desc
    · rw [checkNotNullRows, if_pos hv] at h
      exact ⟨_, (Except.error.inj h).symm⟩
    · rw [checkNotNullRows, if_neg hv] at h; exact ih h

theorem checkNotNull_err (values : List Row) (cols : List (String × ColDesc))
    (e : PyErr) (h : checkNotNull values cols = .error e) :
    ∃ msg, e = .apiError msg := by
  induction cols with
  | nil => rw [checkNotNull] at h; cases h
  | cons p rest ih =>
    obtain ⟨cname, desc⟩ := p
    by_cases hnul : desc.is_nullable
    · rw [checkNotNull, if_pos hnul] at h; exact ih h
    · rw [checkNotNull, if_neg hnul] at h
      cases hcur : checkNotNullRows cname desc values with
      | error e2 =>
        rw [hcur] at h
        cases h
        exact checkNotNullRows_err _ _ _ _ hcur
      | ok u => rw [hcur] at h; exact ih h

/-- C5: if any row of the batch fails the constraint pre-validation — a
unique/primary-key match in the live table, or a NOT-NULL column without a
live default missing or null in the row — then `data_insert` (on a
non-meta target table) fails with the constraint-violation `APIError` and
no row of the batch is written to the insert-shadow table. -/
theorem dataInsertCheck_eq (env : Env) (schema table : String)
    (values : List Row) (t : TableDef)
    (ht : findTable env schema table = some t) :
    dataInsertCheck env schema table values =
      (match checkConstraints t.rows values t.constraints with
       | .error e => .error e
       | .ok _ => checkNotNull values t.cols) := by
  rw [dataInsertCheck]
  simp [describeColumns, ht]

theorem data_insert_all_or_nothing (env : Env) (schema table : String)
    (values shadowIns : List Row) (t : TableDef)
    (hname : (strStarts "_" table || strEnds "_cor" table) = false)
    (ht : findTable env schema table = some t)
    (hviol : tableBatchViolation t values) :
    ∃ msg, dataInsert env schema table values shadowIns =
      (.error (.apiError msg), shadowIns) := by
  have hcheck : ∃ msg, dataInsertCheck env schema table values = .error (.apiError msg) := by
    rw [dataInsertCheck_eq env schema table values t ht]
    cases hcc : checkConstraints t.rows values t.constraints with
    | error e =>
      obtain ⟨msg, hm⟩ := checkConstraints_err _ _ _ _ hcc
      subst hm
      exact ⟨msg, rfl⟩
    | ok u =>
      cases hnn : checkNotNull values t.cols with
      | error e =>
        obtain ⟨msg, hm⟩ := checkNotNull_err _ _ _ hnn
        subst hm
        exact ⟨msg, rfl⟩
      | ok u2 =>
        exfalso
        rcases hviol with ⟨con, hc, hup, row, hr, hfil⟩ | ⟨p, hp, hpn, hpd, row, hr, hnul⟩
        · have := checkConstraints_ok _ _ _ hcc con hc hup row hr
          rw [this] at hfil
          cases hfil
        · have := checkNotNull_ok _ _ hnn p hp hpn row hr
          rw [notNullViolation, hnul, Bool.true_and] at this
          rw [Bool.or_eq_false_iff] at this
          rw [this.2] at hpd
          cases hpd
  obtain ⟨msg, hm⟩ := hcheck
  refine ⟨msg, ?_⟩
  simp [dataInsert, hname, hm]

/-- A live table `s.t` whose column `x` is NOT NULL without default, with a
primary-key constraint on `id` and one live row. -/
def tblC5 : TableDef :=
  { schema := "s", name := "t",
    cols := [("id", { data_type := "bigint", is_nullable := false,
                      column_default := some "seq" }),
             ("x", { data_type := "text", is_nullable := false,
                     column_default := none })],
    pks := ["id"],
    constraints := [{ conname := "t_pkey", contype := "p", columns := ["id"] }],
    rows := [[("id", .int 1), ("x", .str "live")]] }

/-- C5 witness: a two-row batch whose second row lacks the NOT-NULL column
`x` is rejected and the insert-shadow table stays empty. -/
theorem data_insert_all_or_nothing_witness :
    ((strStarts "_" "t" || strEnds "_cor" "t") = false) ∧
    (findTable { tables := [tblC5] } "s" "t" = some tblC5) ∧
    tableBatchViolation tblC5
      [[("id", .int 5), ("x", .str "a")], [("id", .int 6)]] ∧
    (∃ msg, dataInsert { tables := [tblC5] } "s" "t"
      [[("id", .int 5), ("x", .str "a")], [("id", .int 6)]] [] =
      (.error (.apiError msg), [])) := by
  refine ⟨by decide, by decide, ?_, ?_⟩
  · right
    refine ⟨("x", { data_type := "text", is_nullable := false, column_default := none }),
      by decide, by decide, by decide, [("id", .int 6)], by decide, by decide⟩
  · exact data_insert_all_or_nothing { tables := [tblC5] } "s" "t"
      [[("id", .int 5), ("x", .str "a")], [("id", .int 6)]] [] tblC5
      (by decide) (by decide)
      (Or.inr ⟨("x", { data_type := "text", is_nullable := false, column_default := none }),
        by decide, by decide, by decide, [("id", .int 6)], by decide, by decide⟩)

/-! ## data_update / __change_rows

The read-before-write select is performed by the external query compiler;
it is abstracted as a row predicate `whereFilter`.  The audit columns
attached by `api.parser.set_meta_info` are passed in as `metaFields`.  The
identifier check `api.parser.is_pg_qual` is likewise a parameter. -/

/-- The `(key, value)` pairs `list(zip(fields, row)) + meta_fields` the
per-row loop of `__change_rows` iterates over: the row's value for every
live column, followed by the audit fields. -/
def rowPairs (cols : List String) (metaFields : Row) (r : Row) :
    List (String × Val) :=
  cols.map (fun c => (c, (assocGet r c).getD .null)) ++ metaFields

/-- The Python membership test `key in pks` of the primary-key guard
(`actions.py:852`).  `pks = [c for c in table.columns if c.primary_key]`
(`actions.py:841`) is a list of SQLAlchemy `Column` *objects*, not of
names, and `key` is a string: `"key" == <Column>` produces a SQL
`BinaryExpression`, and `list.__contains__` takes its truth value, which
compares the hash identity of the column object with the coerced bind
parameter — never true (in old SQLAlchemy versions it raises instead of
returning a truth value; in no version is it ever true).  The membership
therefore always evaluates to false, whatever the key and whichever
columns are primary keys. -/
def strInColumnList (_key : String) (_pkColumns : List String) : Bool := false

/-- The row a non-conflicting pass of the loop builds: the setter's value
where the key is assigned, the original value elsewhere. -/
def substRow (setter : Row) (pairs : List (String × Val)) : Row :=
  pairs.map (fun p => (p.1,
    match assocGet setter p.1 with
    | some sv => sv
    | none => p.2))

/-- The per-pair loop body of `__change_rows`: identifier check, then the
setter substitution with the primary-key guard
`if not (key in pks and value != setter[key])`.  Because `key in pks` is a
string-against-Column-objects membership (see `strInColumnList`), the
guard condition is never satisfied and the `InvalidRequest` branch is dead
code: the setter value is always assigned. -/
def applySetter (isPgQual : String → Bool) (pks : List String) (setter : Row) :
    List (String × Val) → Except PyErr Row
  | [] => .ok []
  | (key, value) :: rest =>
    if isPgQual key then
      match assocGet setter key with
      | some sv =>
        if strInColumnList key pks ∧ value ≠ sv then
          .error (.invalidRequest "Primary keys must remain unchanged.")
        else
          match applySetter isPgQual pks setter rest with
          | .error e => .error e
          | .ok r => .ok ((key, sv) :: r)
      | none =>
        match applySetter isPgQual pks setter rest with
        | .error e => .error e
        | .ok r => .ok ((key, value) :: r)
    else .error (.apiError (key ++ " is not a PostgreSQL identifier"))

/-- The per-row loop of `__change_rows`, building one shadow row per
matched row. -/
def changeRowsBuild (isPgQual : String → Bool) (pks cols : List String)
    (metaFields setter : Row) : List Row → Except PyErr (List Row)
  | [] => .ok []
  | r :: rest =>
    match applySetter isPgQual pks setter (rowPairs cols metaFields r) with
    | .error e => .error e
    | .ok ins =>
      match changeRowsBuild isPgQual pks cols metaFields setter rest with
      | .error e => .error e
      | .ok l => .ok (ins :: l)

/-- `data_update(request, context)` via `__change_rows`: materialise the
rows matched by the caller's filter, build one edit-shadow row per matched
row (original values overridden by the setter, audit fields appended),
insert them into the edit-shadow table in one statement, and return the
count of matched rows.  `t.pks` stands for the list of primary-key
`Column` objects (identified here by their names); the guard fed from it
never fires (see `strInColumnList`).  The second component is the
edit-shadow table. -/
def dataUpdate (isPgQual : String → Bool) (env : Env) (schema table : String)
    (whereFilter : Row → Bool) (setter metaFields : Row)
    (shadowEdit : List Row) : Except PyErr Nat × List Row :=
  match findTable env schema table with
  | none => (.error (.dbError "relation does not exist"), shadowEdit)
  | some t =>
    let matched := t.rows.filter whereFilter
    if matched.isEmpty then (.ok 0, shadowEdit)
    else
      match changeRowsBuild isPgQual t.pks (t.cols.map Prod.fst) metaFields setter matched with
      | .error e => (.error e, shadowEdit)
      | .ok inserts => (.ok matched.length, shadowEdit ++ inserts)

theorem rowPairs_keys (cols : List String) (metaFields : Row) (r : Row) :
    (rowPairs cols metaFields r).map Prod.fst = cols ++ metaFields.map Prod.fst := by
  induction cols with
  | nil => simp [rowPairs]
  | cons c cs ih => simpa [rowPairs] using ih

theorem applySetter_ok (isPgQual : String → Bool) (pks : List String)
    (setter : Row) (pairs : List (String × Val))
    (hq : ∀ p ∈ pairs, isPgQual p.1 = true) :
    applySetter isPgQual pks setter pairs = .ok (substRow setter pairs) := by
  induction pairs with
  | nil => rfl
  | cons p rest ih =>
    obtain ⟨key, value⟩ := p
    have hqk : isPgQual key = true := hq (key, value) (List.mem_cons_self _ _)
    have hrec := ih (fun q hqm => hq q (List.mem_cons_of_mem _ hqm))
    rw [applySetter, if_pos hqk]
    cases hget : assocGet setter key with
    | some sv =>
      have hcond : ¬ (strInColumnList key pks = true ∧ value ≠ sv) := by
        intro ⟨h1, _⟩
        simp [strInColumnList] at h1
      simp only [if_neg hcond, hrec]
      simp [substRow, hget]
    | none =>
      simp only [hrec]
      simp [substRow, hget]

theorem changeRowsBuild_ok (isPgQual : String → Bool) (pks cols : List String)
    (metaFields setter : Row) (rows : List Row)
    (hq : ∀ r ∈ rows, ∀ p ∈ rowPairs cols metaFields r, isPgQual p.1 = true) :
    changeRowsBuild isPgQual pks cols metaFields setter rows =
      .ok (rows.map (fun r => substRow setter (rowPairs cols metaFields r))) := by
  induction rows with
  | nil => rfl
  | cons r rest ih =>
    rw [changeRowsBuild,
      applySetter_ok isPgQual pks setter _ (hq r (List.mem_cons_self _ _)),
      ih (fun s hs => hq s (List.mem_cons_of_mem _ hs))]
    simp

/-- The `Primary keys must remain unchanged.` branch of `__change_rows` is
dead code: whenever the column and audit identifiers pass `is_pg_qual`,
`data_update` stages one substituted row per matched row and returns the
matched count, whatever the setter assigns to primary-key columns. -/
theorem data_update_pk_guard_dead (isPgQual : String → Bool) (env : Env)
    (schema table : String) (whereFilter : Row → Bool)
    (setter metaFields : Row) (shadowEdit : List Row) (t : TableDef)
    (ht : findTable env schema table = some t)
    (hqual : ∀ key ∈ t.cols.map Prod.fst ++ metaFields.map Prod.fst,
      isPgQual key = true) :
    dataUpdate isPgQual env schema table whereFilter setter metaFields shadowEdit =
      (.ok (t.rows.filter whereFilter).length,
       shadowEdit ++ (t.rows.filter whereFilter).map
         (fun r => substRow setter (rowPairs (t.cols.map Prod.fst) metaFields r))) := by
  have hq : ∀ r : Row, ∀ p ∈ rowPairs (t.cols.map Prod.fst) metaFields r,
      isPgQual p.1 = true := by
    intro r p hp
    apply hqual
    rw [← rowPairs_keys (t.cols.map Prod.fst) metaFields r]
    exact List.mem_map_of_mem Prod.fst hp
  rw [dataUpdate, ht]
  by_cases he : (t.rows.filter whereFilter).isEmpty = true
  · rw [List.isEmpty_iff] at he
    simp [he]
  · simp only [if_neg he]
    rw [changeRowsBuild_ok isPgQual t.pks (t.cols.map Prod.fst) metaFields setter
      (t.rows.filter whereFilter) (fun r _ => hq r)]

/-- The live table of the C6 failing input: `s.t` with primary key `id`,
columns `id` and `x`, and one row `(id 1, x a)`. -/
def tblC6 : TableDef :=
  { schema := "s", name := "t",
    cols := [("id", { data_type := "bigint", is_nullable := false,
                      column_default := some "seq" }),
             ("x", { data_type := "text", is_nullable := true,
                     column_default := none })],
    pks := ["id"],
    constraints := [{ conname := "t_pkey", contype := "p", columns := ["id"] }],
    rows := [[("id", .int 1), ("x", .str "a")]] }

/-- C6: evaluation at the failing input.  Updating `s.t` with setter
`{id: 2}` changes the primary key of the matched row `(id 1, x a)`, yet
`data_update` does not raise the dedicated `Primary keys must remain
unchanged.` error: the guard's `key in pks` tests a string against the
list of SQLAlchemy `Column` objects and is never true, so the edit-shadow
row is silently staged with the new primary-key value and the call returns
affected = 1 — contradicting the claim's dedicated-error behaviour, which
the code's own `InvalidRequest` branch shows is the intent. -/
theorem data_update_pk_change_staged_eval :
    dataUpdate (fun _ => true) { tables := [tblC6] } "s" "t" (fun _ => true)
      [("id", Val.int 2)] [("_user", Val.str "u")] [] =
      (.ok 1, [[("id", Val.int 2), ("x", Val.str "a"), ("_user", Val.str "u")]]) := by
  decide

/-! ## Replay / merge engine

`apply_changes(schema, table)` drains the three shadow tables of one
logical table and replays the staged changes on the live table.  The state
below is the database state of that one logical table: the live rows and
the insert / edit / delete shadow tables.  All statements of one
invocation run on a single session; the session commits only after the
loop finishes, so an error discards the pending state (the session is
closed without commit). -/

/-- A live-table row: the `id` primary key plus the remaining columns. -/
structure LiveRow where
  id : Int
  fields : List (String × Val)
  deriving DecidableEq, Repr

/-- A row of the insert- or edit-shadow table: surrogate key `_id`,
`_submitted`, `_applied`, and the mirrored logical columns (`id` plus the
rest). -/
structure ShadowRow where
  sid : Nat
  submitted : Nat
  applied : Bool
  rowId : Int
  fields : List (String × Val)
  deriving DecidableEq, Repr

/-- A row of the delete-shadow table: surrogate key, audit columns, and
the logical primary key only. -/
structure DelRow where
  sid : Nat
  submitted : Nat
  applied : Bool
  rowId : Int
  deriving DecidableEq, Repr

/-- The state of one logical table and its shadow tables. -/
structure TableState where
  live : List LiveRow
  ins : List ShadowRow
  edit : List ShadowRow
  del : List DelRow
  deriving DecidableEq, Repr

/-- The `_type` tag `add_type` attaches to each drained row. -/
inductive ChangeKind where
  | insert
  | update
  | delete
  deriving DecidableEq, Repr

/-- One drained change (the spec's MergeUnit): kind tag, surrogate key,
submission time, logical id, and the payload columns. -/
structure Change where
  kind : ChangeKind
  sid : Nat
  submitted : Nat
  rowId : Int
  fields : List (String × Val)
  deriving DecidableEq, Repr

def mkInsChange (r : ShadowRow) : Change :=
  { kind := .insert, sid := r.sid, submitted := r.submitted,
    rowId := r.rowId, fields := r.fields }

def mkUpdChange (r : ShadowRow) : Change :=
  { kind := .update, sid := r.sid, submitted := r.submitted,
    rowId := r.rowId, fields := r.fields }

def mkDelChange (r : DelRow) : Change :=
  { kind := .delete, sid := r.sid, submitted := r.submitted,
    rowId := r.rowId, fields := [] }

/-- The `_applied = FALSE` rows of the insert-shadow table, tagged. -/
def insChanges (st : TableState) : List Change :=
  (st.ins.filter (fun r => !r.applied)).map mkInsChange

/-- The `_applied = FALSE` rows of the edit-shadow table, tagged. -/
def editChanges (st : TableState) : List Change :=
  (st.edit.filter (fun r => !r.applied)).map mkUpdChange

/-- The `_applied = FALSE` rows of the delete-shadow table, tagged. -/
def delChanges (st : TableState) : List Change :=
  (st.del.filter (fun r => !r.applied)).map mkDelChange

/-- The concatenation `changes` of the three drained generators. -/
def drainChanges (st : TableState) : List Change :=
  insChanges st ++ editChanges st ++ delChanges st

/-- `sorted(changes, key=lambda x: x['_submitted'])` — Python's stable
ascending sort by key, mirrored by the stable insertion sort (any two
stable ascending sorts agree, so this is extensionally Python's
`sorted`). -/
def mergedChanges (st : TableState) : List Change :=
  (drainChanges st).insertionSort (fun a b => a.submitted ≤ b.submitted)

/-- The `UPDATE ... SET _applied=TRUE WHERE id={id}` of `apply_insert`:
marks every insert-shadow row whose *logical* id matches. -/
def markIns (l : List ShadowRow) (i : Int) : List ShadowRow :=
  l.map (fun r => if r.rowId = i then { r with applied := true } else r)

/-- The `UPDATE ... SET _applied=TRUE WHERE _id={id}` of `apply_update`:
marks by surrogate key. -/
def markBySid (l : List ShadowRow) (s : Nat) : List ShadowRow :=
  l.map (fun r => if r.sid = s then { r with applied := true } else r)

/-- The `UPDATE ... SET _applied=TRUE WHERE _id={id}` of `apply_deletion`. -/
def markDelBySid (l : List DelRow) (s : Nat) : List DelRow :=
  l.map (fun r => if r.sid = s then { r with applied := true } else r)

/-- `apply_insert(session, table, row)`: a live-table insert (the database
rejects a duplicate primary key) followed by the applied-marking of the
insert-shadow table. -/
def applyInsert (st : TableState) (c : Change) : Except PyErr TableState :=
  if st.live.any (fun lr => lr.id = c.rowId) then
    .error (.dbError "duplicate key value violates unique constraint")
  else
    .ok { st with live := st.live ++ [{ id := c.rowId, fields := c.fields }],
                  ins := markIns st.ins c.rowId }

/-- `apply_update(session, table, row)`: a live-table update matched by
primary key, then the applied-marking by surrogate key. -/
def applyUpdate (st : TableState) (c : Change) : TableState :=
  { st with live := st.live.map (fun lr =>
              if lr.id = c.rowId then { id := c.rowId, fields := c.fields } else lr),
            edit := markBySid st.edit c.sid }

/-- `apply_deletion(session, table, row)`: a live-table delete matched by
primary key, then the applied-marking by surrogate key. -/
def applyDeletion (st : TableState) (c : Change) : TableState :=
  { st with live := st.live.filter (fun lr => lr.id ≠ c.rowId),
            del := markDelBySid st.del c.sid }

/-- One iteration of the replay loop, dispatching on `_type`. -/
def applyChange (st : TableState) (c : Change) : Except PyErr TableState :=
  match c.kind with
  | .insert => applyInsert st c
  | .update => .ok (applyUpdate st c)
  | .delete => .ok (applyDeletion st c)

/-- The replay loop over the sorted changes, on the session's pending
state; the first raised error aborts. -/
def applyList : TableState → List Change → Except PyErr TableState
  | st, [] => .ok st
  | st, c :: rest =>
    match applyChange st c with
    | .error e => .error e
    | .ok st₁ => applyList st₁ rest

/-- `apply_changes(schema, table)`: drain, sort, replay on one session.
On success the session commits and the pending state becomes the database
state; on an error the exception is re-raised and the session is closed
without commit, so the database state is unchanged. -/
def applyChangesAction (st : TableState) : Option PyErr × TableState :=
  match applyList st (mergedChanges st) with
  | .error e => (some e, st)
  | .ok pending => (none, pending)

/-- Row-wise invariant of the replay steps on an insert/edit shadow row:
surrogate key, logical id and submission time are untouched, and
`_applied` only ever turns true. -/
def rowMono (r r' : ShadowRow) : Prop :=
  r'.sid = r.sid ∧ r'.rowId = r.rowId ∧ r'.submitted = r.submitted ∧
  (r.applied = true → r'.applied = true)

/-- The same invariant on a delete shadow row. -/
def delMono (r r' : DelRow) : Prop :=
  r'.sid = r.sid ∧ r'.rowId = r.rowId ∧ r'.submitted = r.submitted ∧
  (r.applied = true → r'.applied = true)

/-- Is the drained change's own shadow row necessarily marked applied in
the state: for an insert, every insert-shadow row with the same logical id
(the `WHERE id=` marking); for an update/delete, every row with the same
surrogate key. -/
def markedChange (st : TableState) (c : Change) : Prop :=
  match c.kind with
  | .insert => ∀ r ∈ st.ins, r.rowId = c.rowId → r.applied = true
  | .update => ∀ r ∈ st.edit, r.sid = c.sid → r.applied = true
  | .delete => ∀ r ∈ st.del, r.sid = c.sid → r.applied = true

theorem forall₂_trans {α : Type} {R : α → α → Prop}
    (htr : ∀ a b c, R a b → R b c → R a c) :
    ∀ {l1 l2 l3 : List α}, List.Forall₂ R l1 l2 → List.Forall₂ R l2 l3 →
      List.Forall₂ R l1 l3 := by
  intro l1 l2 l3 h12
  induction h12 generalizing l3 with
  | nil => intro h23; cases h23; exact .nil
  | cons h t ih =>
    intro h23
    cases h23 with
    | cons h' t' => exact .cons (htr _ _ _ h h') (ih t')

theorem forall₂_refl_of {α : Type} {R : α → α → Prop} (hr : ∀ a, R a a) :
    ∀ l : List α, List.Forall₂ R l l := by
  intro l
  induction l with
  | nil => exact .nil
  | cons a t ih => exact .cons (hr a) ih

theorem forall₂_mem_left {α : Type} {R : α → α → Prop} :
    ∀ {l l' : List α}, List.Forall₂ R l l' → ∀ a ∈ l, ∃ b ∈ l', R a b := by
  intro l l' h
  induction h with
  | nil => intro a ha; cases ha
  | cons hh ht ih =>
    intro a ha
    rcases List.mem_cons.mp ha with hae | ha
    · exact ⟨_, List.mem_cons_self _ _, hae ▸ hh⟩
    · obtain ⟨b, hb, hr⟩ := ih a ha
      exact ⟨b, List.mem_cons_of_mem _ hb, hr⟩

theorem forall₂_mem_right {α : Type} {R : α → α → Prop} :
    ∀ {l l' : List α}, List.Forall₂ R l l' → ∀ b ∈ l', ∃ a ∈ l, R a b := by
  intro l l' h
  induction h with
  | nil => intro b hb; cases hb
  | cons hh ht ih =>
    intro b hb
    rcases List.mem_cons.mp hb with hbe | hb
    · exact ⟨_, List.mem_cons_self _ _, hbe ▸ hh⟩
    · obtain ⟨a, ha, hr⟩ := ih b hb
      exact ⟨a, List.mem_cons_of_mem _ ha, hr⟩

theorem rowMono_trans (a b c : ShadowRow) (h1 : rowMono a b) (h2 : rowMono b c) :
    rowMono a c := by
  obtain ⟨s1, r1, t1, a1⟩ := h1
  obtain ⟨s2, r2, t2, a2⟩ := h2
  exact ⟨s2.trans s1, r2.trans r1, t2.trans t1, fun h => a2 (a1 h)⟩

theorem delMono_trans (a b c : DelRow) (h1 : delMono a b) (h2 : delMono b c) :
    delMono a c := by
  obtain ⟨s1, r1, t1, a1⟩ := h1
  obtain ⟨s2, r2, t2, a2⟩ := h2
  exact ⟨s2.trans s1, r2.trans r1, t2.trans t1, fun h => a2 (a1 h)⟩

theorem markIns_mono (l : List ShadowRow) (i : Int) :
    List.Forall₂ rowMono l (markIns l i) := by
  induction l with
  | nil => exact .nil
  | cons r t ih =>
    refine .cons ?_ ih
    by_cases h : r.rowId = i
    · simp [h, rowMono]
    · simp [h, rowMono]

theorem markBySid_mono (l : List ShadowRow) (s : Nat) :
    List.Forall₂ rowMono l (markBySid l s) := by
  induction l with
  | nil => exact .nil
  | cons r t ih =>
    refine .cons ?_ ih
    by_cases h : r.sid = s
    · simp [h, rowMono]
    · simp [h, rowMono]

theorem markDelBySid_mono (l : List DelRow) (s : Nat) :
    List.Forall₂ delMono l (markDelBySid l s) := by
  induction l with
  | nil => exact .nil
  | cons r t ih =>
    refine .cons ?_ ih
    by_cases h : r.sid = s
    · simp [h, delMono]
    · simp [h, delMono]

/-- One successful replay step only flips `_applied` flags, preserving all
row identities in all three shadow tables. -/
theorem applyChange_mono (st st' : TableState) (c : Change)
    (h : applyChange st c = .ok st') :
    List.Forall₂ rowMono st.ins st'.ins ∧
    List.Forall₂ rowMono st.edit st'.edit ∧
    List.Forall₂ delMono st.del st'.del := by
  cases hk : c.kind with
  | insert =>
    rw [applyChange, hk, applyInsert] at h
    by_cases hl : st.live.any (fun lr => lr.id = c.rowId)
    · rw [if_pos hl] at h; cases h
    · rw [if_neg hl] at h
      injection h with h
      subst h
      exact ⟨markIns_mono st.ins c.rowId,
        forall₂_refl_of (fun a => ⟨rfl, rfl, rfl, id⟩) st.edit,
        forall₂_refl_of (fun a => ⟨rfl, rfl, rfl, id⟩) st.del⟩
  | update =>
    rw [applyChange, hk] at h
    injection h with h
    subst h
    exact ⟨forall₂_refl_of (fun a => ⟨rfl, rfl, rfl, id⟩) st.ins,
      markBySid_mono st.edit c.sid,
      forall₂_refl_of (fun a => ⟨rfl, rfl, rfl, id⟩) st.del⟩
  | delete =>
    rw [applyChange, hk] at h
    injection h with h
    subst h
    exact ⟨forall₂_refl_of (fun a => ⟨rfl, rfl, rfl, id⟩) st.ins,
      forall₂_refl_of (fun a => ⟨rfl, rfl, rfl, id⟩) st.edit,
      markDelBySid_mono st.del c.sid⟩

theorem applyList_mono (l : List Change) (st st' : TableState)
    (h : applyList st l = .ok st') :
    List.Forall₂ rowMono st.ins st'.ins ∧
    List.Forall₂ rowMono st.edit st'.edit ∧
    List.Forall₂ delMono st.del st'.del := by
  induction l generalizing st with
  | nil =>
    rw [applyList] at h
    injection h with h
    subst h
    exact ⟨forall₂_refl_of (fun a => ⟨rfl, rfl, rfl, id⟩) st.ins,
      forall₂_refl_of (fun a => ⟨rfl, rfl, rfl, id⟩) st.edit,
      forall₂_refl_of (fun a => ⟨rfl, rfl, rfl, id⟩) st.del⟩
  | cons c rest ih =>
    rw [applyList] at h
    cases hc : applyChange st c with
    | error e => rw [hc] at h; cases h
    | ok st₁ =>
      rw [hc] at h
      obtain ⟨i1, e1, d1⟩ := applyChange_mono st st₁ c hc
      obtain ⟨i2, e2, d2⟩ := ih st₁ h
      exact ⟨forall₂_trans rowMono_trans i1 i2,
        forall₂_trans rowMono_trans e1 e2,
        forall₂_trans delMono_trans d1 d2⟩

theorem markIns_marks (l : List ShadowRow) (i : Int) :
    ∀ r ∈ markIns l i, r.rowId = i → r.applied = true := by
  induction l with
  | nil => intro r hr; cases hr
  | cons a t ih =>
    intro r hr
    rcases List.mem_cons.mp hr with hre | hr
    · by_cases h : a.rowId = i
      · rw [hre]; simp [markIns, h]
      · rw [hre]; simp [markIns, h]
    · exact ih r hr

theorem markBySid_marks (l : List ShadowRow) (s : Nat) :
    ∀ r ∈ markBySid l s, r.sid = s → r.applied = true := by
  induction l with
  | nil => intro r hr; cases hr
  | cons a t ih =>
    intro r hr
    rcases List.mem_cons.mp hr with hre | hr
    · by_cases h : a.sid = s
      · rw [hre]; simp [markBySid, h]
      · rw [hre]; simp [markBySid, h]
    · exact ih r hr

theorem markDelBySid_marks (l : List DelRow) (s : Nat) :
    ∀ r ∈ markDelBySid l s, r.sid = s → r.applied = true := by
  induction l with
  | nil => intro r hr; cases hr
  | cons a t ih =>
    intro r hr
    rcases List.mem_cons.mp hr with hre | hr
    · by_cases h : a.sid = s
      · rw [hre]; simp [markDelBySid, h]
      · rw [hre]; simp [markDelBySid, h]
    · exact ih r hr

/-- A successful replay step marks its own change applied. -/
theorem applyChange_marks (st st' : TableState) (c : Change)
    (h : applyChange st c = .ok st') : markedChange st' c := by
  cases hk : c.kind with
  | insert =>
    rw [applyChange, hk, applyInsert] at h
    by_cases hl : st.live.any (fun lr => lr.id = c.rowId)
    · rw [if_pos hl] at h; cases h
    · rw [if_neg hl] at h
      injection h with h
      subst h
      rw [markedChange, hk]
      exact markIns_marks st.ins c.rowId
  | update =>
    rw [applyChange, hk] at h
    injection h with h
    subst h
    rw [markedChange, hk]
    exact markBySid_marks st.edit c.sid
  | delete =>
    rw [applyChange, hk] at h
    injection h with h
    subst h
    rw [markedChange, hk]
    exact markDelBySid_marks st.del c.sid

/-- Marking is preserved by later steps (the flags never revert). -/
theorem marked_mono (st₁ st₂ : TableState) (c : Change)
    (hins : List.Forall₂ rowMono st₁.ins st₂.ins)
    (hedit : List.Forall₂ rowMono st₁.edit st₂.edit)
    (hdel : List.Forall₂ delMono st₁.del st₂.del)
    (hm : markedChange st₁ c) : markedChange st₂ c := by
  obtain ⟨kind, sid, submitted, rowId, fields⟩ := c
  cases kind with
  | insert =>
    have hm' : ∀ r ∈ st₁.ins, r.rowId = rowId → r.applied = true := hm
    intro r' hr' hid
    obtain ⟨r, hr, hmono⟩ := forall₂_mem_right hins r' hr'
    exact hmono.2.2.2 (hm' r hr (by rw [← hmono.2.1]; exact hid))
  | update =>
    have hm' : ∀ r ∈ st₁.edit, r.sid = sid → r.applied = true := hm
    intro r' hr' hid
    obtain ⟨r, hr, hmono⟩ := forall₂_mem_right hedit r' hr'
    exact hmono.2.2.2 (hm' r hr (by rw [← hmono.1]; exact hid))
  | delete =>
    have hm' : ∀ r ∈ st₁.del, r.sid = sid → r.applied = true := hm
    intro r' hr' hid
    obtain ⟨r, hr, hmono⟩ := forall₂_mem_right hdel r' hr'
    exact hmono.2.2.2 (hm' r hr (by rw [← hmono.1]; exact hid))

/-- After a successful replay loop every processed change is marked. -/
theorem applyList_marks (l : List Change) (st st' : TableState)
    (h : applyList st l = .ok st') : ∀ c ∈ l, markedChange st' c := by
  induction l generalizing st with
  | nil => intro c hc; cases hc
  | cons c rest ih =>
    intro d hd
    rw [applyList] at h
    cases hc : applyChange st c with
    | error e => rw [hc] at h; cases h
    | ok st₁ =>
      rw [hc] at h
      rcases List.mem_cons.mp hd with hde | hd
      · obtain ⟨i2, e2, d2⟩ := applyList_mono rest st₁ st' h
        exact hde ▸ marked_mono st₁ st' c i2 e2 d2 (applyChange_marks st st₁ c hc)
      · exact ih st₁ h d hd

/-- C1: `apply_changes` processes exactly the `_applied = false` rows of
the insert, edit and delete shadow tables, each tagged with its
originating kind: the processed sequence is a permutation of the tagged
drained rows and is ordered by `_submitted` ascending, interleaving the
three kinds by submission time regardless of origin table; and after a
successful invocation every drained row is marked `_applied = true`. -/
theorem apply_changes_global_order (st st' : TableState)
    (h : applyChangesAction st = (none, st')) :
    (mergedChanges st).Perm (drainChanges st) ∧
    (mergedChanges st).Pairwise (fun a b => a.submitted ≤ b.submitted) ∧
    (∀ r ∈ st.ins, r.applied = false →
      ∃ r' ∈ st'.ins, r'.sid = r.sid ∧ r'.applied = true) ∧
    (∀ r ∈ st.edit, r.applied = false →
      ∃ r' ∈ st'.edit, r'.sid = r.sid ∧ r'.applied = true) ∧
    (∀ r ∈ st.del, r.applied = false →
      ∃ r' ∈ st'.del, r'.sid = r.sid ∧ r'.applied = true) := by
  have hok : applyList st (mergedChanges st) = .ok st' := by
    rw [applyChangesAction] at h
    cases hl : applyList st (mergedChanges st) with
    | error e =>
      rw [hl] at h
      simp at h
    | ok pending =>
      rw [hl] at h
      simp at h
      rw [h]
  obtain ⟨hins, hedit, hdel⟩ := applyList_mono _ _ _ hok
  have hmarks := applyList_marks _ _ _ hok
  refine ⟨List.perm_insertionSort _ _, ?_, ?_, ?_, ?_⟩
  · haveI : IsTotal Change (fun a b => a.submitted ≤ b.submitted) :=
      ⟨fun a b => Nat.le_total a.submitted b.submitted⟩
    haveI : IsTrans Change (fun a b => a.submitted ≤ b.submitted) :=
      ⟨fun a b c => Nat.le_trans⟩
    exact List.sorted_insertionSort _ _
  · intro r hr hra
    have hc : mkInsChange r ∈ mergedChanges st := by
      refine ((List.perm_insertionSort _ _).mem_iff).mpr ?_
      rw [drainChanges]
      refine List.mem_append_left _ (List.mem_append_left _ ?_)
      exact List.mem_map_of_mem mkInsChange
        (List.mem_filter.mpr ⟨hr, by simp [hra]⟩)
    have hm : ∀ q ∈ st'.ins, q.rowId = (mkInsChange r).rowId → q.applied = true :=
      hmarks _ hc
    obtain ⟨r', hr', hmono⟩ := forall₂_mem_left hins r hr
    exact ⟨r', hr', hmono.1, hm r' hr' (by rw [hmono.2.1]; rfl)⟩
  · intro r hr hra
    have hc : mkUpdChange r ∈ mergedChanges st := by
      refine ((List.perm_insertionSort _ _).mem_iff).mpr ?_
      rw [drainChanges]
      refine List.mem_append_left _ (List.mem_append_right _ ?_)
      exact List.mem_map_of_mem mkUpdChange
        (List.mem_filter.mpr ⟨hr, by simp [hra]⟩)
    have hm : ∀ q ∈ st'.edit, q.sid = (mkUpdChange r).sid → q.applied = true :=
      hmarks _ hc
    obtain ⟨r', hr', hmono⟩ := forall₂_mem_left hedit r hr
    exact ⟨r', hr', hmono.1, hm r' hr' (by rw [hmono.1]; rfl)⟩
  · intro r hr hra
    have hc : mkDelChange r ∈ mergedChanges st := by
      refine ((List.perm_insertionSort _ _).mem_iff).mpr ?_
      rw [drainChanges]
      refine List.mem_append_right _ ?_
      exact List.mem_map_of_mem mkDelChange
        (List.mem_filter.mpr ⟨hr, by simp [hra]⟩)
    have hm : ∀ q ∈ st'.del, q.sid = (mkDelChange r).sid → q.applied = true :=
      hmarks _ hc
    obtain ⟨r', hr', hmono⟩ := forall₂_mem_left hdel r hr
    exact ⟨r', hr', hmono.1, hm r' hr' (by rw [hmono.1]; rfl)⟩

/-- The spec's ordering scenario: staged insert of row 1 at time 10, a
staged delete of row 1 at time 15, and a staged insert of row 2 at
time 20, over an empty live table. -/
def exStC1 : TableState :=
  { live := [],
    ins := [{ sid := 1, submitted := 10, applied := false, rowId := 1,
              fields := [("name", .str "a")] },
            { sid := 2, submitted := 20, applied := false, rowId := 2,
              fields := [("name", .str "b")] }],
    edit := [],
    del := [{ sid := 1, submitted := 15, applied := false, rowId := 1 }] }

/-- The state `apply_changes` commits on the scenario above. -/
def exStC1Fin : TableState := (applyChangesAction exStC1).2

/-- C1 witness: on the insert@10 / delete@15 / insert@20 scenario the
invocation succeeds, the merged order is insert, delete, insert by
submission time, and every drained shadow row ends `_applied = true`. -/
theorem apply_changes_global_order_witness :
    applyChangesAction exStC1 = (none, exStC1Fin) ∧
    (mergedChanges exStC1).map (fun c => (c.kind, c.submitted)) =
      [(.insert, 10), (.delete, 15), (.insert, 20)] ∧
    (∀ r ∈ exStC1.ins, r.applied = false →
      ∃ r' ∈ exStC1Fin.ins, r'.sid = r.sid ∧ r'.applied = true) ∧
    (∀ r ∈ exStC1.del, r.applied = false →
      ∃ r' ∈ exStC1Fin.del, r'.sid = r.sid ∧ r'.applied = true) := by
  refine ⟨by decide, by decide, ?_, ?_⟩
  · exact (apply_changes_global_order exStC1 exStC1Fin (by decide)).2.2.1
  · exact (apply_changes_global_order exStC1 exStC1Fin (by decide)).2.2.2.2

/-- C2: the replay of one `apply_changes` invocation is transactional —
all live-table writes and all `_applied` markings run on one session that
only commits after the whole loop succeeds.  If applying any staged change
raises, the error is surfaced to the caller and the database state is
unchanged: no live-table change of the batch persists and no shadow row
ends with `_applied = true`. -/
theorem apply_changes_transactional (st : TableState) (e : PyErr)
    (st₂ : TableState) (h : applyChangesAction st = (some e, st₂)) :
    st₂.live = st.live ∧ st₂.ins = st.ins ∧ st₂.edit = st.edit ∧
    st₂.del = st.del := by
  rw [applyChangesAction] at h
  cases hl : applyList st (mergedChanges st) with
  | error e2 =>
    rw [hl] at h
    simp at h
    rw [← h.2]
    exact ⟨rfl, rfl, rfl, rfl⟩
  | ok pending =>
    rw [hl] at h
    simp at h

/-- A state on which replay fails: the staged insert of row 1 collides
with the live row 1, so the live insert raises the duplicate-key error. -/
def exStC2 : TableState :=
  { live := [{ id := 1, fields := [("name", .str "old")] }],
    ins := [{ sid := 1, submitted := 10, applied := false, rowId := 1,
              fields := [("name", .str "new")] }],
    edit := [],
    del := [] }

/-- C2 witness: the colliding replay surfaces the duplicate-key error and
leaves the state — live table and all three shadow tables — unchanged. -/
theorem apply_changes_transactional_witness :
    applyChangesAction exStC2 =
      (some (.dbError "duplicate key value violates unique constraint"), exStC2) ∧
    (exStC2.live = exStC2.live ∧ exStC2.ins = exStC2.ins ∧
     exStC2.edit = exStC2.edit ∧ exStC2.del = exStC2.del) := by
  refine ⟨by decide, ?_⟩
  exact apply_changes_transactional exStC2
    (.dbError "duplicate key value violates unique constraint") exStC2 (by decide)

end OEP
